import Mathlib

/-!
Shallow embedding of the pygame window manager (`src/main.py`) and proofs
about its event handling, window geometry, menu stack, pagination and
taskbar behaviour.

Conventions: pygame `Rect` coordinates are integers, so rectangles are
modelled with `Int` fields.  Python's `int(...)` truncates toward zero, so
the float scaling `int(x * (new/old))` of the resize handler is modelled in
exact arithmetic as `Int.tdiv (x * new) old` (truncated division).
-/

/-- A pygame rectangle: integer position and size. -/
structure PRect where
  x : Int
  y : Int
  w : Int
  h : Int
deriving DecidableEq, Repr

/-- pygame `Rect.collidepoint`: a point is inside the rectangle when it lies
within it; points along the right or bottom edge are not inside. -/
def PRect.collide (r : PRect) (p : Int × Int) : Bool :=
  decide (r.x ≤ p.1) && decide (p.1 < r.x + r.w) &&
  decide (r.y ≤ p.2) && decide (p.2 < r.y + r.h)

/-- The screen configuration held by `Application`: `screen_width`,
`screen_height` and `TASKBAR_HEIGHT`. -/
structure Screen where
  width : Int
  height : Int
  taskbar : Int
deriving DecidableEq, Repr

/-- The state of a `DraggableWindow` relevant to geometry and flags:
`rect`, `minimized`, `maximized`, `selected`, `resize`, `offset_x`,
`offset_y` and `prev_rect`. -/
structure DWin where
  rect : PRect
  minimized : Bool
  maximized : Bool
  selected : Bool
  resize : Bool
  offX : Int
  offY : Int
  prevRect : PRect
deriving DecidableEq, Repr

/-- `DraggableWindow.__init__`: a fresh window at `(x, y, w, h)`; all flags
are false, the offsets are zero and `prev_rect` is a copy of `rect`. -/
def DWin.fresh (x y w h : Int) : DWin :=
  { rect := ⟨x, y, w, h⟩, minimized := false, maximized := false,
    selected := false, resize := false, offX := 0, offY := 0,
    prevRect := ⟨x, y, w, h⟩ }

/-- `DraggableWindow.minimize`: sets the `minimized` flag.  (The taskbar
side effect `taskbar.add_window(self)` is modelled by `taskbarAdd`.) -/
def DWin.minimize (w : DWin) : DWin :=
  { w with minimized := true }

/-- `DraggableWindow.maximize`: stores `prev_rect` and fills the screen
above the taskbar. -/
def DWin.maximize (s : Screen) (w : DWin) : DWin :=
  { w with prevRect := w.rect,
           rect := ⟨0, 0, s.width, s.height - s.taskbar⟩,
           maximized := true }

/-- `DraggableWindow.restore`: restores `prev_rect` and clears both the
`minimized` and `maximized` flags.  (The taskbar side effect
`taskbar.remove_window(self)` is modelled by `taskbarRemove`.) -/
def DWin.restore (w : DWin) : DWin :=
  { w with rect := w.prevRect, minimized := false, maximized := false }

/-- `DraggableWindow.toggle_maximize`. -/
def DWin.toggleMaximize (s : Screen) (w : DWin) : DWin :=
  if w.maximized then w.restore else w.maximize s

/-- One of the four state operations of `DraggableWindow`. -/
inductive WOp
  | minimize
  | maximize
  | restore
  | toggleMax
deriving DecidableEq, Repr

/-- Apply one window operation. -/
def WOp.apply (s : Screen) (w : DWin) : WOp → DWin
  | .minimize => w.minimize
  | .maximize => w.maximize s
  | .restore => w.restore
  | .toggleMax => w.toggleMaximize s

/-- Run a sequence of window operations from left to right. -/
def runOps (s : Screen) (w : DWin) : List WOp → DWin
  | [] => w
  | o :: os => runOps s (o.apply s w) os

/-- `DraggableWindow.handle_event` on a `MOUSEMOTION` event at `pos`:
minimized windows ignore it; a selected window in resize mode computes the
candidate size (cursor minus origin minus offset, floored at 200×150) and
applies it only when the resulting rectangle stays on screen above the
taskbar; a selected window in move mode moves to the cursor minus offset,
clamped into the screen. -/
def DWin.handleMotion (s : Screen) (p : Int × Int) (w : DWin) : DWin :=
  if w.minimized then w
  else if w.selected then
    if w.resize then
      let newWidth := max 200 (p.1 - w.rect.x - w.offX)
      let newHeight := max 150 (p.2 - w.rect.y - w.offY)
      if w.rect.x + newWidth ≤ s.width ∧
         w.rect.y + newHeight ≤ s.height - s.taskbar then
        { w with rect := { w.rect with w := newWidth, h := newHeight } }
      else w
    else
      let newX := min (max 0 (p.1 - w.offX)) (s.width - w.rect.w)
      let newY := min (max 0 (p.2 - w.offY)) (s.height - w.rect.h - s.taskbar)
      { w with rect := { w.rect with x := newX, y := newY } }
  else w

/-- `Application.constrain_window_within_screen` applied to a rectangle:
the x then y position clamps (using the incoming size), then the width and
height clamps, in the source's order. -/
def constrainWithinScreen (s : Screen) (r : PRect) : PRect :=
  let x1 := if r.x + r.w > s.width then max (s.width - r.w) 0 else r.x
  let y1 := if r.y + r.h > s.height - s.taskbar then
              max (s.height - s.taskbar - r.h) 0
            else r.y
  let w1 := if r.w > s.width then s.width else r.w
  let h1 := if r.h > s.height - s.taskbar then s.height - s.taskbar else r.h
  ⟨x1, y1, w1, h1⟩

/-- The per-window update of the `VIDEORESIZE` handler: position and size
are multiplied by `newSize / prevSize` (exact arithmetic for Python's float
scaling, `int(...)` truncating toward zero), the size is floor-clamped to
the minimums 150 (width) and 100 (height) used there, and the window is
then constrained within the new screen. -/
def videoResizeWindow (s : Screen) (prevW prevH : Int) (r : PRect) : PRect :=
  let newX := Int.tdiv (r.x * s.width) prevW
  let newY := Int.tdiv (r.y * s.height) prevH
  let newWidth := Int.tdiv (r.w * s.width) prevW
  let newHeight := Int.tdiv (r.h * s.height) prevH
  constrainWithinScreen s ⟨newX, newY, max newWidth 150, max newHeight 100⟩

/-- `Taskbar.add_window`: append unless already present. -/
def taskbarAdd (l : List Nat) (w : Nat) : List Nat :=
  if w ∈ l then l else l ++ [w]

/-- `Taskbar.remove_window`: remove the first occurrence when present. -/
def taskbarRemove (l : List Nat) (w : Nat) : List Nat :=
  if w ∈ l then l.erase w else l

/-- An operation on the taskbar's `minimized_windows` list; windows are
identified by an id, mirroring Python object identity. -/
inductive TbOp
  | add (w : Nat)
  | remove (w : Nat)
deriving DecidableEq, Repr

/-- Run a sequence of taskbar operations from left to right. -/
def runTbOps (l : List Nat) : List TbOp → List Nat
  | [] => l
  | .add w :: os => runTbOps (taskbarAdd l w) os
  | .remove w :: os => runTbOps (taskbarRemove l w) os

/-- The effect on `Application.menu_stack` of a `MOUSEBUTTONDOWN` in
`Application.handle_event`.  The stack's last element is the active popup.
`handleTop` abstracts the active popup's own `handle_event` (a returned
popup is pushed); `openedMenu` abstracts the main menu opened when
right-clicking over a window with an empty stack.  Branches that delegate
to the taskbar or to the window manager leave the stack unchanged. -/
def menuStackMouseDown {M : Type} (rectOf : M → PRect) (taskbarRect : PRect)
    (handleTop : M → Int × Int → Option M) (openedMenu : Option M)
    (button : Nat) (pos : Int × Int) (stack : List M) : List M :=
  if button = 1 then
    if taskbarRect.collide pos then stack
    else
      match stack.getLast? with
      | none => stack
      | some cur =>
        if (rectOf cur).collide pos then
          match handleTop cur pos with
          | some p => stack ++ [p]
          | none => stack
        else []
  else if button = 3 then
    match stack.getLast? with
    | none =>
      match openedMenu with
      | some m => stack ++ [m]
      | none => stack
    | some cur =>
      if (rectOf cur).collide pos then stack.dropLast
      else []
  else stack

/-- The probing loop of `WindowManager.handle_event`, with the windows
listed topmost first (`reversed(self.windows)`).  `h` abstracts a window's
`handle_event` for the current event; `sel` reads its `selected` flag after
the call.  Returns the processed windows above the first claimant, the
claimant when no one claimed below was probed, and the untouched windows
below the claimant. -/
def wmProbe {W : Type} (h : W → W) (sel : W → Bool) :
    List W → List W × Option W × List W
  | [] => ([], none, [])
  | w :: below =>
    let w1 := h w
    if sel w1 then ([], some w1, below)
    else
      let r := wmProbe h sel below
      (w1 :: r.1, r.2.1, r.2.2)

/-- `WindowManager.handle_event` on the topmost-first window list, together
with the application's `selected_window`: probe from the top; on the first
window whose `selected` flag is true after its `handle_event`, call
`bring_to_front` (the claimant moves to the head of the topmost-first list
and the others keep their order, as the pop-and-append does), record it as
the application's selected window and stop; when no window claims, the
selected window is unchanged. -/
def wmHandleEvent {W : Type} (h : W → W) (sel : W → Bool)
    (ws : List W) (appSel : Option W) : List W × Option W :=
  match wmProbe h sel ws with
  | (above, some c, below) => (c :: above ++ below, some c)
  | (above, none, _) => (above, appSel)

/-- `MainMenuWindow.OPTIONS_PER_PAGE`. -/
def OPTIONS_PER_PAGE : Nat := 5

/-- A dynamic menu option: its `name` and `body`. -/
structure DynOption where
  name : String
  body : String
deriving DecidableEq, Repr

/-- `MainMenuWindow.get_total_pages`. -/
def getTotalPages (dynOpts : List DynOption) : Nat :=
  (dynOpts.length + OPTIONS_PER_PAGE - 1) / OPTIONS_PER_PAGE

/-- `MainMenuWindow.has_multiple_pages`. -/
def hasMultiplePages (dynOpts : List DynOption) : Bool :=
  dynOpts.length > OPTIONS_PER_PAGE

/-- `MainMenuWindow.create_new_option`: appends "Option n" (n the new
count) with the default body to the target window's dynamic options, and
sets `current_page` to the last page.  Returns the new option list and the
new `current_page`. -/
def createNewOption (dynOpts : List DynOption) : List DynOption × Nat :=
  let n := dynOpts.length + 1
  let opts := dynOpts ++ [⟨"Option " ++ toString n, "Editable body text."⟩]
  (opts, getTotalPages opts - 1)

/-- Selecting "New Option" `n` times starting from no dynamic options;
returns the dynamic options and the menu's `current_page`. -/
def createNTimes : Nat → List DynOption × Nat
  | 0 => ([], 0)
  | n + 1 => createNewOption (createNTimes n).1

/-- The editing state of an `EditablePopupWindow`: the displayed `title`
and `body`, the two editing flags, the edit buffer `input_text`, and the
backing option record's fields (`option['name']`, `option['body']`). -/
structure EPW where
  title : String
  body : String
  editingTitle : Bool
  editingBody : Bool
  inputText : String
  optName : String
  optBody : String
deriving DecidableEq, Repr

/-- A `KEYDOWN` key as seen by `EditablePopupWindow.handle_event`: Return,
Backspace, or any other key carrying its `event.unicode` text. -/
inductive PKey
  | ret
  | backspace
  | char (c : String)
deriving DecidableEq, Repr

/-- `EditablePopupWindow.handle_event` on a `KEYDOWN` with shift state
`shift`: only acts in an edit mode; Return with shift appends a newline to
the body and the buffer (body mode only); Return without shift commits the
buffer into the title or body and the backing option and leaves edit mode;
Backspace drops the buffer's last character; any other key appends
`event.unicode`. -/
def EPW.handleKey (shift : Bool) (k : PKey) (w : EPW) : EPW :=
  if w.editingTitle || w.editingBody then
    match k with
    | .ret =>
      if shift then
        if w.editingBody then
          { w with body := w.body ++ "\n", inputText := w.inputText ++ "\n" }
        else w
      else
        if w.editingTitle then
          { w with title := w.inputText, editingTitle := false,
                   optName := w.inputText }
        else if w.editingBody then
          { w with body := w.inputText, editingBody := false,
                   optBody := w.inputText }
        else w
    | .backspace => { w with inputText := w.inputText.dropRight 1 }
    | .char c => { w with inputText := w.inputText ++ c }
  else w

/-- When no probed window claims the event, `wmProbe` processes every
window with `h` and finds no claimant. -/
theorem wmProbe_none {W : Type} (h : W → W) (sel : W → Bool) :
    ∀ ws : List W, (∀ w ∈ ws, sel (h w) = false) →
      wmProbe h sel ws = (ws.map h, none, []) := by
  intro ws
  induction ws with
  | nil => intro _; rfl
  | cons w below ih =>
    intro hws
    have h1 : sel (h w) = false := hws w (List.mem_cons_self _ _)
    have h2 := ih (fun v hv => hws v (List.mem_cons_of_mem _ hv))
    simp [wmProbe, h1, h2]

/-- When the windows strictly above `w` do not claim the event and `w`
does, `wmProbe` returns the processed windows above, `h w` as claimant,
and the untouched windows below. -/
theorem wmProbe_found {W : Type} (h : W → W) (sel : W → Bool) :
    ∀ (above : List W) (w : W) (below : List W),
      (∀ v ∈ above, sel (h v) = false) → sel (h w) = true →
      wmProbe h sel (above ++ w :: below) = (above.map h, some (h w), below) := by
  intro above
  induction above with
  | nil =>
    intro w below _ hw
    simp [wmProbe, hw]
  | cons a above ih =>
    intro w below ha hw
    have h1 : sel (h a) = false := ha a (List.mem_cons_self _ _)
    have h2 := ih w below (fun v hv => ha v (List.mem_cons_of_mem _ hv)) hw
    simp [wmProbe, h1, h2]

/-- Claim C1: `WindowManager.handle_event` probes windows topmost first;
when no window's `selected` flag is true after its `handle_event`, every
window receives the event and the application's selected window is
unchanged; otherwise the first claimant is brought to the front, recorded
as the selected window, and no window below it receives the event. -/
theorem wm_dispatch_probe_until_selected {W : Type} (h : W → W)
    (sel : W → Bool) (appSel : Option W) :
    (∀ ws : List W, (∀ w ∈ ws, sel (h w) = false) →
      wmHandleEvent h sel ws appSel = (ws.map h, appSel)) ∧
    (∀ (above : List W) (w : W) (below : List W),
      (∀ v ∈ above, sel (h v) = false) → sel (h w) = true →
      wmHandleEvent h sel (above ++ w :: below) appSel =
        (h w :: above.map h ++ below, some (h w))) := by
  constructor
  · intro ws hws
    simp [wmHandleEvent, wmProbe_none h sel ws hws]
  · intro above w below ha hw
    simp [wmHandleEvent, wmProbe_found h sel above w below ha hw]

/-- Witness for C1: with windows `[2, 3, 1, 4, 5]` (topmost first) and the
claimant predicate `n = 1`, windows 2 and 3 are probed, 1 claims and moves
to the front, and 4 and 5 are untouched. -/
theorem wm_dispatch_probe_until_selected_witness :
    wmHandleEvent (fun n : Nat => n) (fun n => decide (n = 1))
      [2, 3, 1, 4, 5] none = ([1, 2, 3, 4, 5], some 1) := by
  have h := (wm_dispatch_probe_until_selected (fun n : Nat => n)
      (fun n => decide (n = 1)) none).2 [2, 3] 1 [4, 5]
      (by decide) (by decide)
  simpa using h

/-- Claim C2 counterexample: with a two-level menu stack, a right
mouse-button-down outside the active popup's rect clears the whole stack
(the result has length 0, not the claimed length 1). -/
theorem menu_right_click_outside_clears_all :
    menuStackMouseDown (fun r : PRect => r) ⟨0, 560, 800, 40⟩
      (fun _ _ => none) none 3 (500, 100)
      [⟨10, 10, 200, 150⟩, ⟨50, 50, 200, 150⟩] = [] ∧
    ¬(menuStackMouseDown (fun r : PRect => r) ⟨0, 560, 800, 40⟩
        (fun _ _ => none) none 3 (500, 100)
        [⟨10, 10, 200, 150⟩, ⟨50, 50, 200, 150⟩]).length = 1 := by
  constructor
  · rfl
  · decide

/-- Claim C2 (amended): for a non-empty menu stack, a left mouse-button-down
outside the active popup's rect and off the taskbar clears the whole
stack; a right mouse-button-down outside the active popup's rect also
clears the whole stack; a right mouse-button-down inside the active
popup's rect pops exactly one level, leaving the rest intact. -/
theorem menu_stack_click_dismissal {M : Type} (rectOf : M → PRect)
    (taskbarRect : PRect) (handleTop : M → Int × Int → Option M)
    (openedMenu : Option M) (stack : List M) (cur : M) (pos : Int × Int)
    (hcur : stack.getLast? = some cur) :
    (taskbarRect.collide pos = false → (rectOf cur).collide pos = false →
      menuStackMouseDown rectOf taskbarRect handleTop openedMenu 1 pos
        stack = []) ∧
    ((rectOf cur).collide pos = false →
      menuStackMouseDown rectOf taskbarRect handleTop openedMenu 3 pos
        stack = []) ∧
    ((rectOf cur).collide pos = true →
      menuStackMouseDown rectOf taskbarRect handleTop openedMenu 3 pos
        stack = stack.dropLast ∧ stack.dropLast ++ [cur] = stack) := by
  refine ⟨?_, ?_, ?_⟩
  · intro ht hc
    simp [menuStackMouseDown, ht, hcur, hc]
  · intro hc
    simp [menuStackMouseDown, hcur, hc]
  · intro hc
    refine ⟨by simp [menuStackMouseDown, hcur, hc], ?_⟩
    obtain ⟨l, rfl⟩ := List.getLast?_eq_some_iff.mp hcur
    simp

/-- Witness for C2 (amended): a concrete two-level stack; a left or right
click at (500,100) is outside the active popup and clears the stack; a
right click at (60,60) is inside it and pops exactly one level. -/
theorem menu_stack_click_dismissal_witness :
    menuStackMouseDown (fun r : PRect => r) ⟨0, 560, 800, 40⟩
      (fun _ _ => none) none 1 (500, 100)
      [⟨10, 10, 200, 150⟩, ⟨50, 50, 200, 150⟩] = [] ∧
    menuStackMouseDown (fun r : PRect => r) ⟨0, 560, 800, 40⟩
      (fun _ _ => none) none 3 (60, 60)
      [⟨10, 10, 200, 150⟩, ⟨50, 50, 200, 150⟩] = [⟨10, 10, 200, 150⟩] := by
  have h := menu_stack_click_dismissal (fun r : PRect => r) ⟨0, 560, 800, 40⟩
      (fun _ _ => none) none [⟨10, 10, 200, 150⟩, ⟨50, 50, 200, 150⟩]
      ⟨50, 50, 200, 150⟩ (500, 100) (by decide)
  have h2 := menu_stack_click_dismissal (fun r : PRect => r) ⟨0, 560, 800, 40⟩
      (fun _ _ => none) none [⟨10, 10, 200, 150⟩, ⟨50, 50, 200, 150⟩]
      ⟨50, 50, 200, 150⟩ (60, 60) (by decide)
  refine ⟨h.1 (by decide) (by decide), ?_⟩
  have h3 := (h2.2.2 (by decide)).1
  simpa using h3

/-- The initial 800×600 screen with the 40-pixel taskbar. -/
def screen0 : Screen := ⟨800, 600, 40⟩

/-- The main window of `src/main.py`: `DraggableWindow(100, 100, 300, 200)`. -/
def win0 : DWin := DWin.fresh 100 100 300 200

/-- Claim C3 counterexample: a maximize followed by a minimize leaves both
the `minimized` and the `maximized` flag true at the same time. -/
theorem minimize_maximize_both_true :
    (runOps screen0 win0 [WOp.maximize, WOp.minimize]).minimized = true ∧
    (runOps screen0 win0 [WOp.maximize, WOp.minimize]).maximized = true :=
  ⟨rfl, rfl⟩

/-- A sequence without `minimize` never sets the `minimized` flag:
`maximize` leaves it untouched and `restore` (also via `toggle_maximize`)
clears it. -/
theorem runOps_no_minimize_keeps_unminimized (s : Screen) :
    ∀ (ops : List WOp) (w : DWin), WOp.minimize ∉ ops →
      w.minimized = false → (runOps s w ops).minimized = false := by
  intro ops
  induction ops with
  | nil => intro w _ hw; exact hw
  | cons o os ih =>
    intro w hops hw
    have h1 : WOp.minimize ∉ os := fun hmem => hops (List.mem_cons_of_mem _ hmem)
    have h2 : o ≠ WOp.minimize := fun he => hops (he ▸ List.mem_cons_self _ _)
    cases o with
    | minimize => exact absurd rfl h2
    | maximize => exact ih _ h1 (by simp [WOp.apply, DWin.maximize, hw])
    | restore => exact ih _ h1 (by simp [WOp.apply, DWin.restore])
    | toggleMax =>
      refine ih _ h1 ?_
      simp only [WOp.apply, DWin.toggleMaximize]
      split
      · simp [DWin.restore]
      · simp [DWin.maximize, hw]

/-- Claim C3 (amended): for every sequence of `maximize`, `restore` and
`toggle_maximize` calls (no `minimize`) from a freshly constructed window,
the `minimized` and `maximized` flags are never both true; a `maximize`
followed by a `minimize`, however, makes both flags true at once. -/
theorem flags_exclusive_without_minimize (s : Screen) (x y wd ht : Int)
    (ops : List WOp) (hops : WOp.minimize ∉ ops) :
    ¬((runOps s (DWin.fresh x y wd ht) ops).minimized = true ∧
      (runOps s (DWin.fresh x y wd ht) ops).maximized = true) := by
  intro hcontra
  have hfalse :=
    runOps_no_minimize_keeps_unminimized s ops (DWin.fresh x y wd ht) hops rfl
  rw [hcontra.1] at hfalse
  exact Bool.noConfusion hfalse

/-- Witness for C3 (amended): the sequence maximize-then-restore contains
no minimize, and indeed leaves the flags not both true. -/
theorem flags_exclusive_without_minimize_witness :
    WOp.minimize ∉ [WOp.maximize, WOp.restore] ∧
    ¬((runOps screen0 (DWin.fresh 0 0 300 200)
        [WOp.maximize, WOp.restore]).minimized = true ∧
      (runOps screen0 (DWin.fresh 0 0 300 200)
        [WOp.maximize, WOp.restore]).maximized = true) :=
  ⟨by decide,
   flags_exclusive_without_minimize screen0 0 0 300 200
     [WOp.maximize, WOp.restore] (by decide)⟩

/-- Claim C7 counterexample: after `maximize; minimize; restore` the
window's rectangle is the pre-maximize rectangle stored in `prev_rect`,
not the rectangle it had when it was minimized (the maximized one). -/
theorem minimize_restore_after_maximize_gives_prev_rect :
    (runOps screen0 win0 [WOp.maximize, WOp.minimize, WOp.restore]).rect ≠
      (runOps screen0 win0 [WOp.maximize]).rect := by
  decide

/-- Claim C7 (amended): `minimize` leaves the rectangle unchanged;
`restore` after `minimize` yields the rectangle recorded in `prev_rect`,
which equals the exact pre-minimize rectangle precisely when `prev_rect`
agreed with `rect` at minimize time. -/
theorem minimize_keeps_rect_restore_gives_prev (w : DWin) :
    (w.minimize).rect = w.rect ∧
    ((w.minimize).restore).rect = w.prevRect ∧
    (w.prevRect = w.rect → ((w.minimize).restore).rect = w.rect) :=
  ⟨rfl, rfl, fun h => h ▸ rfl⟩

/-- Witness for C7 (amended): on the fresh main window (`prev_rect = rect`)
the minimize-then-restore round trip restores the exact rectangle. -/
theorem minimize_keeps_rect_restore_gives_prev_witness :
    (win0.minimize).rect = win0.rect ∧
    ((win0.minimize).restore).rect = win0.rect :=
  ⟨(minimize_keeps_rect_restore_gives_prev win0).1,
   (minimize_keeps_rect_restore_gives_prev win0).2.2 rfl⟩

/-- Claim C4 counterexample: resizing from (800,600) to (800,600) leaves a
160×120 window at 160×120 — the handler's minimum-size clamp is 150×100,
not the claimed width ≥ 200 and height ≥ 150. -/
theorem video_resize_min_clamp_is_150_100 :
    (videoResizeWindow ⟨800, 600, 40⟩ 800 600 ⟨0, 0, 160, 120⟩).w = 160 ∧
    ¬(200 ≤ (videoResizeWindow ⟨800, 600, 40⟩ 800 600 ⟨0, 0, 160, 120⟩).w) := by
  constructor <;> decide

/-- `constrain_window_within_screen` keeps a window that already satisfies
the 150×100 minimum size fully inside the screen above the taskbar. -/
theorem constrainWithinScreen_bounds (s : Screen) (r : PRect)
    (hx : 0 ≤ r.x) (hy : 0 ≤ r.y) (hw : 150 ≤ r.w) (hh : 100 ≤ r.h)
    (hsw : 150 ≤ s.width) (hsh : 100 ≤ s.height - s.taskbar) :
    150 ≤ (constrainWithinScreen s r).w ∧
    100 ≤ (constrainWithinScreen s r).h ∧
    0 ≤ (constrainWithinScreen s r).x ∧
    (constrainWithinScreen s r).x + (constrainWithinScreen s r).w ≤
      s.width ∧
    0 ≤ (constrainWithinScreen s r).y ∧
    (constrainWithinScreen s r).y + (constrainWithinScreen s r).h ≤
      s.height - s.taskbar := by
  simp only [constrainWithinScreen, max_def]
  split_ifs <;> refine ⟨?_, ?_, ?_, ?_, ?_, ?_⟩ <;> omega

/-- Claim C4 (amended): on a screen-resize event every window's rectangle
is rescaled by (newWidth/oldWidth, newHeight/oldHeight) in x, y, width and
height, floor-clamped to the handler's minimum size of width ≥ 150 and
height ≥ 100, and then constrained to lie fully inside the new screen
bounds minus the taskbar height; resizing from (800,600) to (1600,600)
maps a window at (100,100,300,200) to (200,100,600,200). -/
theorem video_resize_scales_clamps_constrains (s : Screen) (pw ph : Int)
    (r : PRect) (hx : 0 ≤ r.x) (hy : 0 ≤ r.y) (hpw : 0 ≤ pw) (hph : 0 ≤ ph)
    (htb : 0 ≤ s.taskbar) (hsw : 150 ≤ s.width)
    (hsh : 100 ≤ s.height - s.taskbar) :
    (150 ≤ (videoResizeWindow s pw ph r).w ∧
     100 ≤ (videoResizeWindow s pw ph r).h ∧
     0 ≤ (videoResizeWindow s pw ph r).x ∧
     (videoResizeWindow s pw ph r).x + (videoResizeWindow s pw ph r).w ≤
       s.width ∧
     0 ≤ (videoResizeWindow s pw ph r).y ∧
     (videoResizeWindow s pw ph r).y + (videoResizeWindow s pw ph r).h ≤
       s.height - s.taskbar) ∧
    videoResizeWindow ⟨1600, 600, 40⟩ 800 600 ⟨100, 100, 300, 200⟩ =
      ⟨200, 100, 600, 200⟩ := by
  refine ⟨?_, by decide⟩
  have h := constrainWithinScreen_bounds s
      ⟨Int.tdiv (r.x * s.width) pw, Int.tdiv (r.y * s.height) ph,
       max (Int.tdiv (r.w * s.width) pw) 150,
       max (Int.tdiv (r.h * s.height) ph) 100⟩
      (Int.tdiv_nonneg (mul_nonneg hx (by omega)) hpw)
      (Int.tdiv_nonneg (mul_nonneg hy (by omega)) hph)
      (le_max_right _ _) (le_max_right _ _) hsw hsh
  simpa [videoResizeWindow] using h

/-- Witness for C4 (amended): the concrete (800,600)→(1600,600) resize of
the (100,100,300,200) window satisfies all the clamping bounds. -/
theorem video_resize_scales_clamps_constrains_witness :
    150 ≤ (videoResizeWindow ⟨1600, 600, 40⟩ 800 600 ⟨100, 100, 300, 200⟩).w ∧
    100 ≤ (videoResizeWindow ⟨1600, 600, 40⟩ 800 600 ⟨100, 100, 300, 200⟩).h ∧
    0 ≤ (videoResizeWindow ⟨1600, 600, 40⟩ 800 600 ⟨100, 100, 300, 200⟩).x ∧
    (videoResizeWindow ⟨1600, 600, 40⟩ 800 600 ⟨100, 100, 300, 200⟩).x +
      (videoResizeWindow ⟨1600, 600, 40⟩ 800 600 ⟨100, 100, 300, 200⟩).w ≤
      1600 ∧
    0 ≤ (videoResizeWindow ⟨1600, 600, 40⟩ 800 600 ⟨100, 100, 300, 200⟩).y ∧
    (videoResizeWindow ⟨1600, 600, 40⟩ 800 600 ⟨100, 100, 300, 200⟩).y +
      (videoResizeWindow ⟨1600, 600, 40⟩ 800 600 ⟨100, 100, 300, 200⟩).h ≤
      600 - 40 := by
  have h := (video_resize_scales_clamps_constrains ⟨1600, 600, 40⟩ 800 600
      ⟨100, 100, 300, 200⟩ (by decide) (by decide) (by decide) (by decide)
      (by decide) (by decide) (by decide)).1
  simpa using h

/-- Claim C5: motion during a resize-drag (selected and resize both true)
computes cursor − origin − offset, floored at 200 (width) and 150
(height); the candidate size is applied only when the resulting rectangle
stays within the screen bounds minus the taskbar height, and otherwise the
window's state is left completely unchanged for that frame. -/
theorem resize_drag_guarded (s : Screen) (p : Int × Int) (w : DWin)
    (hmin : w.minimized = false) (hsel : w.selected = true)
    (hres : w.resize = true) :
    ((w.rect.x + max 200 (p.1 - w.rect.x - w.offX) ≤ s.width ∧
      w.rect.y + max 150 (p.2 - w.rect.y - w.offY) ≤
        s.height - s.taskbar) →
      DWin.handleMotion s p w =
        { w with rect := { w.rect with
            w := max 200 (p.1 - w.rect.x - w.offX),
            h := max 150 (p.2 - w.rect.y - w.offY) } }) ∧
    (¬(w.rect.x + max 200 (p.1 - w.rect.x - w.offX) ≤ s.width ∧
       w.rect.y + max 150 (p.2 - w.rect.y - w.offY) ≤
         s.height - s.taskbar) →
      DWin.handleMotion s p w = w) := by
  constructor <;> intro hfit <;>
    simp [DWin.handleMotion, hmin, hsel, hres, hfit]

/-- A window mid resize-drag: selected and resize true, offsets zero. -/
def win5 : DWin :=
  { rect := ⟨100, 100, 300, 200⟩, minimized := false, maximized := false,
    selected := true, resize := true, offX := 0, offY := 0,
    prevRect := ⟨100, 100, 300, 200⟩ }

/-- Witness for C5: dragging the handle of `win5` to (400,400) on the
800×600 screen resizes it to 300×300; dragging to (2000,400) would leave
the screen and the rectangle is unchanged. -/
theorem resize_drag_guarded_witness :
    DWin.handleMotion screen0 (400, 400) win5 =
      { win5 with rect := ⟨100, 100, 300, 300⟩ } ∧
    DWin.handleMotion screen0 (2000, 400) win5 = win5 := by
  constructor
  · have h := (resize_drag_guarded screen0 (400, 400) win5 rfl rfl rfl).1
      (by decide)
    exact h.trans (by decide)
  · exact (resize_drag_guarded screen0 (2000, 400) win5 rfl rfl rfl).2
      (by decide)

/-- Claim C6: a mouse-motion step of a move- or resize-drag keeps a window
that lies within [0, screenWidth] × [0, screenHeight − taskbarHeight]
inside those bounds, and in the move case the new position is the cursor
minus the offset clamped into
[0, screenWidth − width] × [0, screenHeight − taskbarHeight − height]. -/
theorem drag_motion_stays_in_bounds (s : Screen) (p : Int × Int) (w : DWin)
    (hmin : w.minimized = false) (hsel : w.selected = true)
    (hx : 0 ≤ w.rect.x) (hy : 0 ≤ w.rect.y)
    (hxw : w.rect.x + w.rect.w ≤ s.width)
    (hyh : w.rect.y + w.rect.h ≤ s.height - s.taskbar) :
    (0 ≤ (DWin.handleMotion s p w).rect.x ∧
     (DWin.handleMotion s p w).rect.x + (DWin.handleMotion s p w).rect.w ≤
       s.width ∧
     0 ≤ (DWin.handleMotion s p w).rect.y ∧
     (DWin.handleMotion s p w).rect.y + (DWin.handleMotion s p w).rect.h ≤
       s.height - s.taskbar) ∧
    (w.resize = false →
      (DWin.handleMotion s p w).rect.x =
        min (max 0 (p.1 - w.offX)) (s.width - w.rect.w) ∧
      (DWin.handleMotion s p w).rect.y =
        min (max 0 (p.2 - w.offY)) (s.height - w.rect.h - s.taskbar)) := by
  constructor
  · rcases Bool.eq_false_or_eq_true w.resize with hr | hr
    · simp only [DWin.handleMotion, hmin, hsel, hr]
      simp only [Bool.false_eq_true, if_false, if_true]
      split_ifs with hfit
      · exact ⟨hx, hfit.1, hy, hfit.2⟩
      · exact ⟨hx, hxw, hy, hyh⟩
    · simp only [DWin.handleMotion, hmin, hsel, hr]
      simp only [Bool.false_eq_true, if_false, if_true]
      refine ⟨?_, ?_, ?_, ?_⟩ <;> omega
  · intro hr
    simp [DWin.handleMotion, hmin, hsel, hr]

/-- A window mid move-drag: selected true, resize false, offsets zero. -/
def win6 : DWin :=
  { rect := ⟨100, 100, 300, 200⟩, minimized := false, maximized := false,
    selected := true, resize := false, offX := 0, offY := 0,
    prevRect := ⟨100, 100, 300, 200⟩ }

/-- Witness for C6: moving `win6` toward (1000,50) on the 800×600 screen
clamps it to x = 500 = 800 − 300 and y = 50, inside the bounds. -/
theorem drag_motion_stays_in_bounds_witness :
    (DWin.handleMotion screen0 (1000, 50) win6).rect.x = 500 ∧
    (DWin.handleMotion screen0 (1000, 50) win6).rect.y = 50 ∧
    (DWin.handleMotion screen0 (1000, 50) win6).rect.x +
      (DWin.handleMotion screen0 (1000, 50) win6).rect.w ≤ 800 := by
  have h := drag_motion_stays_in_bounds screen0 (1000, 50) win6 rfl rfl
    (by decide) (by decide) (by decide) (by decide)
  refine ⟨?_, ?_, ?_⟩
  · rw [(h.2 rfl).1]; decide
  · rw [(h.2 rfl).2]; decide
  · simpa using h.1.2.1

/-- Claim C8: `get_total_pages` is the ceiling of the dynamic-option count
divided by 5; after `create_new_option` the current page is the page
holding the newly appended option (the last page); selecting "New Option"
six times from no options gives 6 options, multiple pages, 2 total pages
and current page 1. -/
theorem pagination_pages_and_current_page (dynOpts : List DynOption) :
    ((getTotalPages dynOpts : ℤ) = ⌈(dynOpts.length : ℚ) / 5⌉ ∧
     (createNewOption dynOpts).2 = dynOpts.length / 5 ∧
     (createNewOption dynOpts).1.length = dynOpts.length + 1) ∧
    ((createNTimes 6).1.length = 6 ∧
     hasMultiplePages (createNTimes 6).1 = true ∧
     getTotalPages (createNTimes 6).1 = 2 ∧
     (createNTimes 6).2 = 1) := by
  refine ⟨⟨?_, ?_, ?_⟩, by decide, by decide, by decide, by decide⟩
  · rw [eq_comm, Int.ceil_eq_iff]
    have h5 : (0 : ℚ) < 5 := by norm_num
    have hz1 : ((getTotalPages dynOpts : ℤ) - 1) * 5 < (dynOpts.length : ℤ) := by
      simp only [getTotalPages, OPTIONS_PER_PAGE]
      omega
    have hz2 : (dynOpts.length : ℤ) ≤ (getTotalPages dynOpts : ℤ) * 5 := by
      simp only [getTotalPages, OPTIONS_PER_PAGE]
      omega
    constructor
    · rw [lt_div_iff₀ h5]
      exact_mod_cast hz1
    · rw [div_le_iff₀ h5]
      exact_mod_cast hz2
  · simp only [createNewOption, getTotalPages, OPTIONS_PER_PAGE,
      List.length_append, List.length_cons, List.length_nil]
    omega
  · simp [createNewOption]

/-- Witness for C8: three dynamic options fit on one page
(`get_total_pages` = 1 = ⌈3/5⌉), and a fourth lands on page 0. -/
theorem pagination_pages_and_current_page_witness :
    (getTotalPages [⟨"Option 1", "a"⟩, ⟨"Option 2", "b"⟩,
        ⟨"Option 3", "c"⟩] : ℤ) =
      ⌈(([⟨"Option 1", "a"⟩, ⟨"Option 2", "b"⟩,
          ⟨"Option 3", "c"⟩] : List DynOption).length : ℚ) / 5⌉ ∧
    (createNewOption [⟨"Option 1", "a"⟩, ⟨"Option 2", "b"⟩,
        ⟨"Option 3", "c"⟩]).2 = 0 := by
  have h := (pagination_pages_and_current_page
      [⟨"Option 1", "a"⟩, ⟨"Option 2", "b"⟩, ⟨"Option 3", "c"⟩]).1
  exact ⟨h.1, h.2.1⟩

/-- Claim C9: while an `EditablePopupWindow` is in an edit mode, backspace
on an empty buffer is a no-op; Enter without shift commits the buffer
(including an empty one) into the title or body and the backing option
record and exits edit mode; Shift+Enter leaves everything unchanged in
title mode, and in body mode appends a newline to both the buffer and the
committed body without exiting edit mode. -/
theorem editable_popup_key_edits (w : EPW) :
    ((w.editingTitle = true ∨ w.editingBody = true) → w.inputText = "" →
      EPW.handleKey false PKey.backspace w = w) ∧
    (w.editingTitle = true →
      EPW.handleKey false PKey.ret w =
        { w with title := w.inputText, editingTitle := false,
                 optName := w.inputText }) ∧
    (w.editingTitle = false → w.editingBody = true →
      EPW.handleKey false PKey.ret w =
        { w with body := w.inputText, editingBody := false,
                 optBody := w.inputText }) ∧
    (w.editingTitle = true → w.editingBody = false →
      EPW.handleKey true PKey.ret w = w) ∧
    (w.editingBody = true →
      EPW.handleKey true PKey.ret w =
        { w with body := w.body ++ "\n",
                 inputText := w.inputText ++ "\n" }) := by
  have hdr : ("" : String).dropRight 1 = "" := rfl
  refine ⟨?_, ?_, ?_, ?_, ?_⟩
  · rintro hEdit hEmpty
    have hor : (w.editingTitle || w.editingBody) = true := by
      rcases hEdit with h | h <;> simp [h]
    obtain ⟨t, b, et, eb, it, onm, ob⟩ := w
    dsimp only at hEmpty
    simp only [EPW.handleKey]
    simp only [Bool.or_eq_true] at hor
    simp [hor, hEmpty, hdr]
  · intro hT
    simp [EPW.handleKey, hT]
  · intro hT hB
    simp [EPW.handleKey, hT, hB]
  · intro hT hB
    simp [EPW.handleKey, hT, hB]
  · intro hB
    simp [EPW.handleKey, hB]

/-- An `EditablePopupWindow` in body-edit mode with an empty buffer over
the default dynamic option. -/
def epw0 : EPW :=
  { title := "Option 1", body := "Editable body text.",
    editingTitle := false, editingBody := true, inputText := "",
    optName := "Option 1", optBody := "Editable body text." }

/-- Witness for C9: on `epw0`, backspace is a no-op, Enter commits the
empty buffer into body and option (overwriting) and exits edit mode, and
Shift+Enter appends a newline to buffer and committed body. -/
theorem editable_popup_key_edits_witness :
    EPW.handleKey false PKey.backspace epw0 = epw0 ∧
    EPW.handleKey false PKey.ret epw0 =
      { epw0 with body := "", editingBody := false, optBody := "" } ∧
    EPW.handleKey true PKey.ret epw0 =
      { epw0 with body := "Editable body text.\n", inputText := "\n" } := by
  refine ⟨(editable_popup_key_edits epw0).1 (Or.inr rfl) rfl, ?_, ?_⟩
  · exact ((editable_popup_key_edits epw0).2.2.1 rfl rfl).trans rfl
  · exact ((editable_popup_key_edits epw0).2.2.2.2 rfl).trans rfl

/-- Every `runTbOps` run preserves the no-duplicates invariant of the
taskbar's minimized-window list. -/
theorem runTbOps_nodup (ops : List TbOp) :
    ∀ l : List Nat, l.Nodup → (runTbOps l ops).Nodup := by
  induction ops with
  | nil => intro l hl; exact hl
  | cons o os ih =>
    intro l hl
    cases o with
    | add w =>
      refine ih _ ?_
      unfold taskbarAdd
      split
      · exact hl
      · rename_i hw
        simp [List.nodup_append, hl, hw]
    | remove w =>
      refine ih _ ?_
      unfold taskbarRemove
      split
      · exact hl.erase w
      · exact hl

/-- Claim C10: `Taskbar.add_window` is a no-op when the window is already
present, and every operation sequence from the initially empty taskbar
(including minimizing an already-minimized window, which re-adds it)
leaves each window at most once in the minimized-window list. -/
theorem taskbar_no_duplicates :
    (∀ (l : List Nat) (w : Nat), w ∈ l → taskbarAdd l w = l) ∧
    (∀ ops : List TbOp, (runTbOps [] ops).Nodup) :=
  ⟨fun l w hw => by simp [taskbarAdd, hw],
   fun ops => runTbOps_nodup ops [] List.nodup_nil⟩

/-- Witness for C10: re-adding window 3 is a no-op, and the sequence
add 1, add 1, remove 1, add 2 yields a duplicate-free list. -/
theorem taskbar_no_duplicates_witness :
    taskbarAdd [3] 3 = [3] ∧
    (runTbOps [] [TbOp.add 1, TbOp.add 1, TbOp.remove 1,
      TbOp.add 2]).Nodup :=
  ⟨taskbar_no_duplicates.1 [3] 3 (by decide),
   taskbar_no_duplicates.2 [TbOp.add 1, TbOp.add 1, TbOp.remove 1,
     TbOp.add 2]⟩
